import Mathlib

/-!
Verification of the filter-and-export pipeline of `app.py`
(level-crossing search map).

The Python source is shallowly embedded: each pandas / JavaScript
operation relevant to the claims is translated into an executable Lean
definition over lists of records.  Numbers are modelled as exact
rationals (`ℚ`); missing values (`NaN` / absent cells) as `Option`;
pandas column absence as boolean schema flags; a raising column access
as `Except`.
-/

namespace Humikiri

/-! ### String utilities

`strContainsLit hay pat` is literal (case-sensitive) substring
containment: it models JavaScript `hay.includes(pat)` and is also the
reference meaning of "literal substring" used by the specification. -/

/-- Literal substring search on character lists, testing a prefix
match at every position. -/
def hasSubAux (pat : List Char) : List Char → Bool
  | [] => pat.isEmpty
  | c :: t => pat.isPrefixOf (c :: t) || hasSubAux pat t

/-- Literal substring containment: does `hay` contain `pat`? -/
def strContainsLit (hay pat : String) : Bool :=
  hasSubAux pat.toList hay.toList

/-- ASCII lowercasing, modelling both Python `str.lower()` and
JavaScript `String.prototype.toLowerCase()` (they agree on ASCII;
all theorems use this only on ASCII data or via fixed-point
hypotheses). -/
def strToLower (s : String) : String :=
  ⟨s.data.map Char.toLower⟩

/-! ### A fragment of Python regular expressions

`pandas.Series.str.contains(pat)` treats `pat` as a regular expression
(`regex=True` is the pandas default) and tests `re.search`.  We embed
the fragment of Python regexes whose only metacharacter is the dot
(`.` matches any character); on patterns containing no metacharacter
at all this coincides with literal substring search, which is exactly
the fragment the claims need. -/

/-- One regex token: a literal character or the `.` wildcard. -/
inductive RTok where
  | lit (c : Char)
  | dot
  deriving DecidableEq, Repr

/-- Does one token match one character? -/
def tokMatches : RTok → Char → Bool
  | .lit a, c => a == c
  | .dot, _ => true

/-- Does the token list match a prefix of the character list? -/
def matchToks : List RTok → List Char → Bool
  | [], _ => true
  | _ :: _, [] => false
  | t :: ts, c :: cs => tokMatches t c && matchToks ts cs

/-- Models `re.search` on the fragment: does the pattern match at
some position of the haystack? -/
def reSearchAux (p : List RTok) : List Char → Bool
  | [] => p.isEmpty
  | c :: t => matchToks p (c :: t) || reSearchAux p t

/-- Parse a pattern string of the fragment: `.` becomes the wildcard,
every other character a literal. -/
def parsePat (s : String) : List RTok :=
  s.toList.map (fun c => if c = '.' then RTok.dot else RTok.lit c)

/-- Python regex metacharacters.  A pattern avoiding all of them is
matched by `re.search` exactly as a literal substring. -/
def metaChars : List Char :=
  ['.', '^', '$', '*', '+', '?', '(', ')', '[', ']', '{', '}', '|', '\\']

/-- The pattern string contains no regex metacharacter. -/
def noMeta (s : String) : Bool :=
  s.toList.all (fun c => !metaChars.contains c)

/-- Embeds pandas `Series.str.contains(pat)` (default `regex=True`,
`case=True`) for one cell: `re.search(pat, hay)` on the dot-fragment. -/
def pyReContains (hay pat : String) : Bool :=
  reSearchAux (parsePat pat) hay.toList

/-! ### Data model

One row of the loaded CSV.  Field names romanise the Japanese column
names of `app.py`: `name` = 踏切名, `line` = 線名, `shisha` = 支社名,
`kasho` = 箇所名（系統名なし）, `ctype` = 踏切種別, `kilo` =
中心位置キロ程, `lat`/`lon` = Lat/Lon.  `none` is a missing (NaN)
cell. -/
structure Row where
  name : Option String
  line : Option String
  shisha : Option String
  kasho : Option String
  ctype : Option String
  kilo : Option ℚ
  lat : Option ℚ
  lon : Option ℚ
  deriving DecidableEq, Repr

/-- The sentinel option meaning "unconstrained" in every dropdown. -/
def subete : String := "すべて"

/-- A snapshot of the sidebar controls: `search_name`,
`selected_line`, `selected_shisha`, `selected_kasho`,
`selected_type`, `selected_kilo_range`. -/
structure Criteria where
  searchName : String
  line : String
  shisha : String
  kasho : String
  ctype : String
  kiloRange : Option (ℚ × ℚ)
  deriving DecidableEq, Repr

/-! ### The live filter engine (app.py lines 294–309) -/

/-- Name stage: `if search_name:` then keep rows with
`踏切名.notna() & 踏切名.str.contains(search_name, na=False)`. -/
def nameStage (t : String) (rows : List Row) : List Row :=
  if t = "" then rows
  else rows.filter (fun r =>
    match r.name with
    | some n => pyReContains n t
    | none => false)

/-- Categorical stage: `if selected != 'すべて':` then keep rows with
`df[col] == selected` (pandas `==` is `false` on a NaN cell). -/
def catStage (sel : String) (get : Row → Option String) (rows : List Row) : List Row :=
  if sel = subete then rows
  else rows.filter (fun r =>
    match get r with
    | some v => v == sel
    | none => false)

/-- Kilometer-post stage: `if selected_kilo_range:` (a tuple is always
truthy, `None` falsy) then `dropna(subset=['中心位置キロ程'])` followed
by the mask `(col >= lo) & (col <= hi)`. -/
def kiloStage (rng : Option (ℚ × ℚ)) (rows : List Row) : List Row :=
  match rng with
  | none => rows
  | some (lo, hi) =>
      (rows.filter (fun r => r.kilo.isSome)).filter
        (fun r => decide (lo ≤ r.kilo.getD 0) && decide (r.kilo.getD 0 ≤ hi))

/-- The live Streamlit filter engine: `filtered_df` of app.py lines
294–309 (starting from the empty frame when `df` is empty). -/
def filteredDf (df : List Row) (c : Criteria) : List Row :=
  if df.isEmpty then []
  else
    kiloStage c.kiloRange
      (catStage c.ctype Row.ctype
        (catStage c.kasho Row.kasho
          (catStage c.shisha Row.shisha
            (catStage c.line Row.line
              (nameStage c.searchName df)))))

/-! Per-row predicates equivalent to the stages, used to reason about
the engine as a single `List.filter`. -/

/-- Per-row predicate of the name stage. -/
def namePred (t : String) (r : Row) : Bool :=
  if t = "" then true
  else
    match r.name with
    | some n => pyReContains n t
    | none => false

/-- Per-row predicate of one categorical stage. -/
def catPred (sel : String) (get : Row → Option String) (r : Row) : Bool :=
  if sel = subete then true
  else
    match get r with
    | some v => v == sel
    | none => false

/-- Per-row predicate of the kilometer-post stage. -/
def kiloPred (rng : Option (ℚ × ℚ)) (r : Row) : Bool :=
  match rng with
  | none => true
  | some (lo, hi) =>
      r.kilo.isSome && (decide (lo ≤ r.kilo.getD 0) && decide (r.kilo.getD 0 ≤ hi))

/-- The conjunctive per-row predicate of the whole engine. -/
def rowPred (c : Criteria) (r : Row) : Bool :=
  namePred c.searchName r
    && catPred c.line Row.line r
    && catPred c.shisha Row.shisha r
    && catPred c.kasho Row.kasho r
    && catPred c.ctype Row.ctype r
    && kiloPred c.kiloRange r

theorem nameStage_eq_filter (t : String) (rows : List Row) :
    nameStage t rows = rows.filter (namePred t) := by
  unfold nameStage namePred
  split
  · simp
  · rfl

theorem catStage_eq_filter (sel : String) (get : Row → Option String) (rows : List Row) :
    catStage sel get rows = rows.filter (catPred sel get) := by
  unfold catStage catPred
  split
  · simp
  · rfl

theorem kiloStage_eq_filter (rng : Option (ℚ × ℚ)) (rows : List Row) :
    kiloStage rng rows = rows.filter (kiloPred rng) := by
  match rng with
  | none =>
    simp only [kiloStage]
    exact (List.filter_eq_self.mpr (fun r _ => rfl)).symm
  | some (lo, hi) =>
    simp only [kiloStage, List.filter_filter]
    apply List.filter_congr
    intro r _
    simp [kiloPred, Bool.and_comm]

theorem filteredDf_eq_filter (df : List Row) (c : Criteria) :
    filteredDf df c = df.filter (rowPred c) := by
  unfold filteredDf
  split
  · rename_i h
    rw [List.isEmpty_iff] at h
    simp [h]
  · rw [nameStage_eq_filter, catStage_eq_filter, catStage_eq_filter,
      catStage_eq_filter, catStage_eq_filter, kiloStage_eq_filter,
      List.filter_filter, List.filter_filter, List.filter_filter,
      List.filter_filter, List.filter_filter]
    apply List.filter_congr
    intro r _
    unfold rowPred
    cases namePred c.searchName r <;>
      cases catPred c.line Row.line r <;>
        cases catPred c.shisha Row.shisha r <;>
          cases catPred c.kasho Row.kasho r <;>
            cases catPred c.ctype Row.ctype r <;>
              cases kiloPred c.kiloRange r <;> rfl

/-! ### The kilometer-post formatter (app.py lines 13–23)

Python numerics are modelled exactly over `ℚ`; the floating-point
representation is abstracted away (no claim depends on rounding of
binary floats). -/

/-- Python `int(x)`: truncation toward zero. -/
def pyTrunc (q : ℚ) : ℤ :=
  if 0 ≤ q then Rat.floor q else Rat.ceil q

/-- Python `a % b` for numbers (sign follows the divisor):
`a - b * floor(a / b)`. -/
def pyMod (a b : ℚ) : ℚ :=
  a - b * (Rat.floor (a / b) : ℚ)

/-- Round to the nearest integer, ties to even (Python's rounding of
an exact value in string formatting). -/
def roundHalfEven (q : ℚ) : ℤ :=
  let f := Rat.floor q
  let d := q - (f : ℚ)
  if d < 1/2 then f
  else if 1/2 < d then f + 1
  else if f % 2 = 0 then f else f + 1

/-- Left-pad with `'0'` to the given width (Python's `0` fill). -/
def padZeros (s : String) (w : Nat) : String :=
  ⟨List.replicate (w - s.length) '0' ++ s.data⟩

/-- Python format spec `05.1f` for a non-negative value: one decimal
digit, zero-padded to overall width 5.  (`meter` below always lies in
`[0, 1000)`, so only the non-negative case is exercised.) -/
def fmt051 (q : ℚ) : String :=
  let t := roundHalfEven (q * 10)
  padZeros (toString (t / 10) ++ "." ++ toString (t % 10)) 5

/-- The argument of `format_kilopost`: a missing cell (`pd.isna`
true), a numeric value, or a non-missing value on which Python
`float(value)` raises `ValueError`/`TypeError` (carried by its
display string). -/
inductive KiloInput where
  | missing
  | num (v : ℚ)
  | nonNumeric (s : String)
  deriving DecidableEq, Repr

/-- Embeds `format_kilopost` (app.py lines 13–23): empty string on a
missing value; otherwise `kilo = int(value / 1000)`,
`meter = value % 1000`, formatted `f"{kilo}k{meter:05.1f}m"`; on a
conversion failure the original value is returned unchanged. -/
def format_kilopost : KiloInput → String
  | .missing => ""
  | .num v =>
      toString (pyTrunc (v / 1000)) ++ "k" ++ fmt051 (pyMod v 1000) ++ "m"
  | .nonNumeric s => s

/-- Modelled from the spec's words for comparison: the claimed output
`f"{int(v//1000)}k{v%1000:05.1f}m"`, where `v // 1000` is Python
floor division. -/
def format_kilopost_spec (v : ℚ) : String :=
  toString (pyTrunc ((Rat.floor (v / 1000) : ℤ) : ℚ)) ++ "k"
    ++ fmt051 (pyMod v 1000) ++ "m"

theorem ratFloor_intCast (z : ℤ) : Rat.floor ((z : ℚ)) = z := by
  simp [Rat.floor]

theorem ratCeil_intCast (z : ℤ) : Rat.ceil ((z : ℚ)) = z := by
  simp [Rat.ceil]

theorem pyTrunc_intCast (z : ℤ) : pyTrunc (z : ℚ) = z := by
  unfold pyTrunc
  split <;> simp [ratFloor_intCast, ratCeil_intCast]

theorem pyTrunc_eq_floor_of_nonneg (q : ℚ) (h : 0 ≤ q) :
    pyTrunc q = Rat.floor q := by
  unfold pyTrunc
  simp [h]

/-! ### Schema-aware frame, sidebar setup and slider (app.py 260–290)

A pandas frame is a list of rows plus, per column of interest, a flag
saying whether the column exists in the loaded CSV's schema.
Accessing an absent column (`df['線名']` with no 線名 column) raises a
`KeyError`; this is embedded as `Except`. -/

structure DataFrame where
  hasName : Bool
  hasLine : Bool
  hasShisha : Bool
  hasKasho : Bool
  hasType : Bool
  hasKilo : Bool
  rows : List Row
  deriving DecidableEq, Repr

/-- Embeds `df[col]`: the column's cells, or a raised `KeyError`. -/
def getCol (present : Bool) (cells : List (Option String)) :
    Except String (List (Option String)) :=
  if present then .ok cells else .error "KeyError"

/-- Embeds `sorted(series.dropna().astype(str).unique().tolist())`:
distinct non-missing values in ascending order. -/
def uniqueSorted (cells : List (Option String)) : List String :=
  ((cells.filterMap id).eraseDups).mergeSort (fun a b => decide (a ≤ b))

/-- Embeds the slider setup (app.py lines 277–286): when the
kilometer-post column exists, take `min`/`max` of its non-missing
values; the slider (whose default selection is the full interval) is
created only when both exist and `min < max`, otherwise
`selected_kilo_range = None`. -/
def sliderSetup (df : DataFrame) : Option (ℚ × ℚ) :=
  if df.hasKilo then
    match (df.rows.filterMap Row.kilo).min?, (df.rows.filterMap Row.kilo).max? with
    | some mn, some mx => if mn < mx then some (mn, mx) else none
    | _, _ => none
  else none

/-- The option lists and range produced by the sidebar. -/
structure SidebarState where
  uniqueLines : List String
  uniqueShisha : List String
  uniqueKasho : List String
  uniqueType : List String
  kiloRange : Option (ℚ × ℚ)
  deriving DecidableEq, Repr

/-- Embeds the sidebar construction (app.py lines 260–290).  On a
non-empty frame each categorical option list is
`['すべて'] + sorted(df[col].dropna().astype(str).unique())` — the
column accesses are unguarded, so an absent column raises — while the
kilometer-post column is accessed only behind an
`in df.columns` guard.  On an empty frame the defaults are used and
no column is touched. -/
def sidebarSetup (df : DataFrame) : Except String SidebarState :=
  if df.rows.isEmpty then
    .ok { uniqueLines := [], uniqueShisha := [], uniqueKasho := [],
          uniqueType := [], kiloRange := none }
  else do
    let lineCol ← getCol df.hasLine (df.rows.map Row.line)
    let shishaCol ← getCol df.hasShisha (df.rows.map Row.shisha)
    let kashoCol ← getCol df.hasKasho (df.rows.map Row.kasho)
    let typeCol ← getCol df.hasType (df.rows.map Row.ctype)
    .ok { uniqueLines := subete :: uniqueSorted lineCol,
          uniqueShisha := subete :: uniqueSorted shishaCol,
          uniqueKasho := subete :: uniqueSorted kashoCol,
          uniqueType := subete :: uniqueSorted typeCol,
          kiloRange := sliderSetup df }

/-! ### Pandas cell values and the interactive export
(app.py lines 41–102) -/

/-- A dynamically typed pandas cell: a number, a string, or `NaN`. -/
inductive PdVal where
  | num (q : ℚ)
  | strv (s : String)
  | nan
  deriving DecidableEq, Repr

/-- Embeds `pd.notna`. -/
def pdNotNa : PdVal → Bool
  | .nan => false
  | _ => true

/-- One cell after `df.fillna('')`: `NaN` becomes the empty string. -/
def fillnaEmpty : PdVal → PdVal
  | .nan => .strv ""
  | v => v

/-- A numeric `Option` cell as a pandas value. -/
def numCell : Option ℚ → PdVal
  | some q => .num q
  | none => .nan

/-- A string `Option` cell as a pandas value. -/
def strCell : Option String → PdVal
  | some s => .strv s
  | none => .nan

/-- One record of the embedded `markers_data` payload of the
interactive export (the folium-assigned marker id and the
pre-rendered popup markup, which repeat the same fields, are not
modelled). -/
structure MarkerRec where
  lat : PdVal
  lon : PdVal
  name : PdVal
  line : PdVal
  shisha : PdVal
  kasho : PdVal
  ctype : PdVal
  deriving DecidableEq, Repr

/-- Embeds the payload loop of `create_multifilter_map_html`
(app.py lines 48–88): iterate over `df_safe = df.fillna('')` and
append one record whenever `pd.notna(row['Lat']) and
pd.notna(row['Lon'])` — evaluated, as in the source, on the
already-filled cells. -/
def markersData (rows : List Row) : List MarkerRec :=
  rows.filterMap (fun r =>
    let lat := fillnaEmpty (numCell r.lat)
    let lon := fillnaEmpty (numCell r.lon)
    if pdNotNa lat && pdNotNa lon then
      some { lat := lat, lon := lon,
             name := fillnaEmpty (strCell r.name),
             line := fillnaEmpty (strCell r.line),
             shisha := fillnaEmpty (strCell r.shisha),
             kasho := fillnaEmpty (strCell r.kasho),
             ctype := fillnaEmpty (strCell r.ctype) }
    else none)

/-! ### Map centers (app.py lines 52–54 and 314–316) -/

/-- Embeds `Series.mean()`: skips missing values; `NaN` (here `none`) on an
all-missing column. -/
def pandasMean (l : List ℚ) : Option ℚ :=
  if l.isEmpty then none else some (l.sum / (l.length : ℚ))

/-- Embeds `df['Lat'].mean()`: the latitude of the map center. -/
def centerLat (rows : List Row) : Option ℚ :=
  pandasMean (rows.filterMap Row.lat)

/-- Embeds `df['Lon'].mean()`: the longitude of the map center. -/
def centerLon (rows : List Row) : Option ℚ :=
  pandasMean (rows.filterMap Row.lon)

/-- Both coordinates present. -/
def coordComplete (r : Row) : Bool :=
  r.lat.isSome && r.lon.isSome

/-- Modelled from the spec's words for comparison: mean latitude over
exactly the rows with both coordinates present. -/
def centerLatSpec (rows : List Row) : Option ℚ :=
  pandasMean ((rows.filter coordComplete).filterMap Row.lat)

/-- Modelled from the spec's words for comparison: mean longitude over
exactly the rows with both coordinates present. -/
def centerLonSpec (rows : List Row) : Option ℚ :=
  pandasMean ((rows.filter coordComplete).filterMap Row.lon)

/-! ### The embedded client-side filter script
(app.py lines 201–233)

The script receives the `markers_data` payload, whose field values
are the `fillna('')` cells, i.e. `r.f.getD ""` for string fields.
Composing the payload construction with `applyFilters` gives the
script's visibility predicate as a function of the original row. -/

/-- The five export controls: the name text box and the four
dropdowns (`'すべて'` is again the unconstrained first option; the
options are the distinct truthy payload values, hence never `""`). -/
structure Controls where
  searchName : String
  line : String
  shisha : String
  kasho : String
  ctype : String
  deriving DecidableEq, Repr

/-- Embeds `applyFilters` (app.py lines 201–233) as a predicate on the
original row: `nameFilter = value.toLowerCase()`, then
`(nameFilter === '' || data.name.toLowerCase().includes(nameFilter))`
conjoined with `(sel === 'すべて' || data.field === sel)` for the
four dropdowns. -/
def jsVisible (c : Controls) (r : Row) : Bool :=
  let nameFilter := strToLower c.searchName
  (nameFilter == "" || strContainsLit (strToLower (r.name.getD "")) nameFilter)
    && (c.line == subete || (r.line.getD "") == c.line)
    && (c.shisha == subete || (r.shisha.getD "") == c.shisha)
    && (c.kasho == subete || (r.kasho.getD "") == c.kasho)
    && (c.ctype == subete || (r.ctype.getD "") == c.ctype)

/-- The live engine's criteria corresponding to the five export
controls (the export has no kilometer-post control, so no range is
active). -/
def controlsCriteria (c : Controls) : Criteria :=
  { searchName := c.searchName, line := c.line, shisha := c.shisha,
    kasho := c.kasho, ctype := c.ctype, kiloRange := none }

/-! ### Helper lemmas -/

theorem toList_isEmpty_false (t : String) (h : t ≠ "") :
    t.toList.isEmpty = false := by
  cases t with
  | mk data =>
    cases data with
    | nil => exact absurd rfl h
    | cons c cs => rfl

theorem matchToks_lits (p : List Char) (cs : List Char) :
    matchToks (p.map RTok.lit) cs = p.isPrefixOf cs := by
  induction p generalizing cs with
  | nil => cases cs <;> rfl
  | cons a p ih =>
    cases cs with
    | nil => rfl
    | cons c cs =>
      show ((a == c) && matchToks (p.map RTok.lit) cs)
          = ((a == c) && p.isPrefixOf cs)
      rw [ih]

theorem reSearchAux_lits (p : List Char) (cs : List Char) :
    reSearchAux (p.map RTok.lit) cs = hasSubAux p cs := by
  induction cs with
  | nil =>
    show (p.map RTok.lit).isEmpty = p.isEmpty
    cases p <;> rfl
  | cons c t ih =>
    show (matchToks (p.map RTok.lit) (c :: t) || reSearchAux (p.map RTok.lit) t)
        = (p.isPrefixOf (c :: t) || hasSubAux p t)
    rw [matchToks_lits, ih]

theorem parsePat_noMeta (s : String) (h : noMeta s = true) :
    parsePat s = s.toList.map RTok.lit := by
  unfold parsePat
  apply List.map_congr_left
  intro c hc
  have hall := List.all_eq_true.mp h c hc
  have : c ≠ '.' := by
    intro he
    rw [he] at hall
    exact absurd hall (by decide)
  simp [this]

theorem pyReContains_noMeta (hay pat : String) (h : noMeta pat = true) :
    pyReContains hay pat = strContainsLit hay pat := by
  unfold pyReContains strContainsLit
  rw [parsePat_noMeta pat h, reSearchAux_lits]

/-- Bounds extracted from a created slider: every non-missing
kilometer-post value of the frame lies in the default interval. -/
theorem sliderSetup_bounds (df : DataFrame) (mn mx : ℚ)
    (h : sliderSetup df = some (mn, mx)) :
    ∀ v ∈ df.rows.filterMap Row.kilo, mn ≤ v ∧ v ≤ mx := by
  unfold sliderSetup at h
  by_cases hk : df.hasKilo = true
  · rw [if_pos hk] at h
    cases hmn : (df.rows.filterMap Row.kilo).min? with
    | none => rw [hmn] at h; cases hmx : (df.rows.filterMap Row.kilo).max? <;>
        rw [hmx] at h <;> cases h
    | some a =>
      cases hmx : (df.rows.filterMap Row.kilo).max? with
      | none => rw [hmn, hmx] at h; cases h
      | some b =>
        rw [hmn, hmx] at h
        change (if a < b then some (a, b) else none) = some (mn, mx) at h
        by_cases hlt : a < b
        · rw [if_pos hlt] at h
          injection h with h'
          injection h' with h1 h2
          subst h1; subst h2
          intro v hv
          haveI : Std.Antisymm (fun x1 x2 : ℚ => x1 ≤ x2) :=
            ⟨fun h1 h2 => le_antisymm h1 h2⟩
          have hmin := (List.min?_eq_some_iff (fun a => le_refl a) min_choice
            (fun a b c => le_min_iff)).mp hmn
          have hmax := (List.max?_eq_some_iff (fun a => le_refl a) max_choice
            (fun a b c => max_le_iff)).mp hmx
          exact ⟨hmin.2 v hv, hmax.2 v hv⟩
        · rw [if_neg hlt] at h; cases h
  · rw [if_neg hk] at h; cases h

/-! ### Claims -/

/-- Claim C2. The kilometer-post formatter: a missing value maps to the
empty string; a numeric value `v ≥ 0` maps to the spec's
`f"{int(v//1000)}k{v%1000:05.1f}m"`; a non-missing value on which
numeric conversion fails is returned unchanged. -/
theorem format_kilopost_contract :
    format_kilopost .missing = ""
    ∧ (∀ v : ℚ, 0 ≤ v →
        format_kilopost (.num v) = format_kilopost_spec v)
    ∧ ∀ s : String, format_kilopost (.nonNumeric s) = s := by
  refine ⟨rfl, ?_, fun s => rfl⟩
  intro v hv
  show toString (pyTrunc (v / 1000)) ++ "k" ++ fmt051 (pyMod v 1000) ++ "m"
      = format_kilopost_spec v
  unfold format_kilopost_spec
  rw [pyTrunc_eq_floor_of_nonneg (v / 1000) (by positivity), pyTrunc_intCast]

theorem format_kilopost_contract_witness :
    (0 : ℚ) ≤ 12345
    ∧ format_kilopost (.num 12345) = format_kilopost_spec 12345 :=
  ⟨by decide, format_kilopost_contract.2.1 12345 (by decide)⟩

/-- Claim C5. The filtered view is a subset of the dataset's rows and
preserves their original relative order. -/
theorem filteredDf_sublist (D : List Row) (C : Criteria) :
    (filteredDf D C).Sublist D ∧ ∀ r ∈ filteredDf D C, r ∈ D := by
  rw [filteredDf_eq_filter]
  exact ⟨List.filter_sublist D, fun r h => (List.mem_filter.mp h).1⟩

/-- Claim C6. The filter engine is idempotent: filtering an already
filtered view with the same criteria changes nothing. -/
theorem filteredDf_idempotent (D : List Row) (C : Criteria) :
    filteredDf (filteredDf D C) C = filteredDf D C := by
  rw [filteredDf_eq_filter, filteredDf_eq_filter, List.filter_filter]
  apply List.filter_congr
  intro r _
  exact Bool.and_self (rowPred C r)

/-- Modelled from the spec's words for comparison (claim C3):
true iff the criteria text is empty, or the name field is present and
contains the text as a case-sensitive literal substring. -/
def specNameTest (t : String) (r : Row) : Bool :=
  (t == "") || (r.name.isSome && strContainsLit (r.name.getD "") t)

/-- A row whose name field is the literal string `"abc"`. -/
def rowAbc : Row :=
  { name := some "abc", line := none, shisha := none, kasho := none,
    ctype := none, kilo := none, lat := none, lon := none }

/-- Claim C3, counterexample. On criteria text `"a.c"` the live name
predicate (pandas `str.contains`, a regex search) accepts the row
named `"abc"`, while literal substring containment rejects it: the
two predicates are not the same. -/
theorem liveNameTest_regex_not_literal :
    namePred "a.c" rowAbc = true ∧ specNameTest "a.c" rowAbc = false := by
  constructor <;> decide

/-- Claim C3, amended. For criteria text free of regex metacharacters,
the live name predicate holds iff the text is empty, or the row's
name is present and contains the text as a case-sensitive literal
substring; in general the text is interpreted as a regular
expression (pandas `str.contains` default), not literally. -/
theorem liveNameTest_literal_of_noMeta (t : String) (r : Row)
    (h : noMeta t = true) :
    namePred t r = specNameTest t r := by
  unfold namePred specNameTest
  by_cases he : t = ""
  · simp [he]
  · rw [if_neg he]
    have hbe : (t == "") = false := by
      simp [he]
    rw [hbe]
    cases hn : r.name with
    | none => simp
    | some n =>
      simp only [Option.isSome_some, Option.getD_some, Bool.true_and,
        Bool.false_or]
      exact pyReContains_noMeta n t h

theorem liveNameTest_literal_witness :
    noMeta "Oak" = true
    ∧ namePred "Oak" rowAbc = specNameTest "Oak" rowAbc :=
  ⟨by decide, liveNameTest_literal_of_noMeta "Oak" rowAbc (by decide)⟩

/-- Claim C4. The kilometer-post range filter is disabled when the
column is absent, has no non-missing value, or its non-missing
minimum equals its maximum; when a range `[lo, hi]` is active a row
passes the range stage iff its kilometer-post value is present and
`lo ≤ value ≤ hi` (so rows with a missing value are excluded). -/
theorem kilo_range_filter_contract :
    (∀ df : DataFrame,
        (df.hasKilo = false
          ∨ df.rows.filterMap Row.kilo = []
          ∨ (df.rows.filterMap Row.kilo).min? = (df.rows.filterMap Row.kilo).max?)
        → sliderSetup df = none)
    ∧ ∀ (rows : List Row) (lo hi : ℚ) (r : Row),
        r ∈ kiloStage (some (lo, hi)) rows
          ↔ r ∈ rows ∧ ∃ v, r.kilo = some v ∧ lo ≤ v ∧ v ≤ hi := by
  constructor
  · intro df h
    unfold sliderSetup
    by_cases hk : df.hasKilo = true
    · rw [if_pos hk]
      rcases h with h | h | h
      · rw [hk] at h; cases h
      · rw [h]; rfl
      · cases hmn : (df.rows.filterMap Row.kilo).min? with
        | none => rfl
        | some a =>
          rw [hmn] at h
          rw [← h]
          change (if a < a then some (a, a) else none) = none
          rw [if_neg (lt_irrefl a)]
    · rw [if_neg hk]
  · intro rows lo hi r
    rw [kiloStage_eq_filter, List.mem_filter]
    unfold kiloPred
    cases hv : r.kilo with
    | none => simp [hv]
    | some v => simp [hv]

/-- A frame whose schema lacks the kilometer-post column. -/
def dfNoKilo : DataFrame :=
  { hasName := true, hasLine := true, hasShisha := true, hasKasho := true,
    hasType := true, hasKilo := false,
    rows := [rowAbc] }

/-- A row with kilometer-post 2, one with 7, and one with a missing
kilometer-post. -/
def rowKilo2 : Row :=
  { name := some "A", line := some "L", shisha := none, kasho := none,
    ctype := none, kilo := some 2, lat := none, lon := none }

def rowKilo7 : Row :=
  { name := some "B", line := some "L", shisha := none, kasho := none,
    ctype := none, kilo := some 7, lat := none, lon := none }

def rowKiloNone : Row :=
  { name := some "C", line := some "L", shisha := none, kasho := none,
    ctype := none, kilo := none, lat := none, lon := none }

theorem kilo_range_filter_contract_witness :
    sliderSetup dfNoKilo = none
    ∧ (rowKilo2 ∈ kiloStage (some (2, 7)) [rowKilo2]
        ↔ rowKilo2 ∈ [rowKilo2] ∧ ∃ v, rowKilo2.kilo = some v ∧ 2 ≤ v ∧ v ≤ 7) :=
  ⟨kilo_range_filter_contract.1 dfNoKilo (Or.inl rfl),
   kilo_range_filter_contract.2 [rowKilo2] 2 7 rowKilo2⟩

/-- The all-default criteria: empty search text, every dropdown at
`'すべて'`, the slider (when created) at its full default interval. -/
def defaultCriteria (rng : Option (ℚ × ℚ)) : Criteria :=
  { searchName := "", line := subete, shisha := subete, kasho := subete,
    ctype := subete, kiloRange := rng }

/-- Claim C10. Whenever the kilometer-post column exists and its
non-missing minimum is strictly below its maximum, the slider is
created (`sliderSetup` returns the full interval) and a range is
always active; consequently the all-default filtered view equals the
dataset restricted to rows with a non-missing kilometer-post, and
under any criteria with an active range every surviving row has a
non-missing kilometer-post. -/
theorem default_view_drops_missing_kilo (df : DataFrame) (mn mx : ℚ)
    (h : sliderSetup df = some (mn, mx)) :
    filteredDf df.rows (defaultCriteria (some (mn, mx)))
        = df.rows.filter (fun r => r.kilo.isSome)
    ∧ ∀ (c : Criteria) (p : ℚ × ℚ), c.kiloRange = some p →
        ∀ r ∈ filteredDf df.rows c, r.kilo.isSome := by
  constructor
  · rw [filteredDf_eq_filter]
    apply List.filter_congr
    intro r hr
    unfold rowPred defaultCriteria
    simp only [namePred, catPred, kiloPred, if_pos rfl, Bool.true_and]
    cases hv : r.kilo with
    | none => rfl
    | some v =>
      have hvmem : v ∈ df.rows.filterMap Row.kilo :=
        List.mem_filterMap.mpr ⟨r, hr, hv⟩
      have hb := sliderSetup_bounds df mn mx h v hvmem
      simp [hb.1, hb.2]
  · intro c p hp r hr
    rw [filteredDf_eq_filter, List.mem_filter] at hr
    have := hr.2
    unfold rowPred at this
    have hkp : kiloPred c.kiloRange r = true := by
      cases hB : kiloPred c.kiloRange r
      · rw [hB, Bool.and_false] at this; cases this
      · rfl
    obtain ⟨lo, hi⟩ := p
    rw [hp] at hkp
    unfold kiloPred at hkp
    simp only [Bool.and_eq_true] at hkp
    exact hkp.1

/-- A frame on which the slider is created with default interval
`[2, 7]` and one row has a missing kilometer-post. -/
def dfKilo : DataFrame :=
  { hasName := true, hasLine := true, hasShisha := true, hasKasho := true,
    hasType := true, hasKilo := true,
    rows := [rowKilo2, rowKilo7, rowKiloNone] }

theorem default_view_drops_missing_kilo_witness :
    filteredDf dfKilo.rows (defaultCriteria (some (2, 7)))
        = dfKilo.rows.filter (fun r => r.kilo.isSome)
    ∧ ∀ (c : Criteria) (p : ℚ × ℚ), c.kiloRange = some p →
        ∀ r ∈ filteredDf dfKilo.rows c, r.kilo.isSome :=
  default_view_drops_missing_kilo dfKilo 2 7 (by decide)

theorem filteredDf_sublist_witness :
    (filteredDf [rowKilo2] (defaultCriteria none)).Sublist [rowKilo2]
    ∧ rowKilo2 ∈ [rowKilo2] :=
  ⟨(filteredDf_sublist [rowKilo2] (defaultCriteria none)).1,
   (filteredDf_sublist [rowKilo2] (defaultCriteria none)).2 rowKilo2 (by decide)⟩

/-- A non-empty frame whose schema lacks the 線名 (line) column. -/
def dfNoLine : DataFrame :=
  { hasName := true, hasLine := false, hasShisha := true, hasKasho := true,
    hasType := true, hasKilo := true,
    rows := [rowKilo2] }

/-- Claim C7, counterexample. Constructing the sidebar filter controls
on a non-empty frame whose schema lacks the line column raises a
`KeyError` (the categorical column accesses are unguarded), instead
of disabling that filter. -/
theorem sidebarSetup_raises_on_missing_line :
    sidebarSetup dfNoLine = .error "KeyError" := rfl

/-- Claim C7, amended. Constructing the filter controls succeeds
without raising exactly when the four categorical columns (line,
branch office, location, type) are present in the schema; only the
kilometer-post column may be absent, in which case the range filter
is disabled (no range active) rather than raising. -/
theorem sidebarSetup_ok_of_categorical_columns (df : DataFrame)
    (hl : df.hasLine = true) (hs : df.hasShisha = true)
    (hk : df.hasKasho = true) (ht : df.hasType = true) :
    ∃ st : SidebarState, sidebarSetup df = .ok st
      ∧ (df.hasKilo = false → st.kiloRange = none) := by
  unfold sidebarSetup
  by_cases he : df.rows.isEmpty = true
  · rw [if_pos he]
    exact ⟨_, rfl, fun _ => rfl⟩
  · rw [if_neg he]
    unfold getCol
    rw [if_pos hl, if_pos hs, if_pos hk, if_pos ht]
    refine ⟨_, rfl, fun hnk => ?_⟩
    unfold sliderSetup
    simp [hnk]

theorem sidebarSetup_ok_witness :
    ∃ st : SidebarState, sidebarSetup dfKilo = .ok st
      ∧ (dfKilo.hasKilo = false → st.kiloRange = none) :=
  sidebarSetup_ok_of_categorical_columns dfKilo rfl rfl rfl rfl

/-- A row with a missing latitude but a present longitude. -/
def rowMissingLat : Row :=
  { name := some "NoLat", line := some "Main", shisha := none,
    kasho := none, ctype := none, kilo := none,
    lat := none, lon := some 139 }

/-- Claim C8. Evaluation of the export payload at the failing input: a
dataset whose single row misses its latitude still contributes a
payload record (with `''` as its latitude), because
`df.fillna('')` has already replaced the `NaN` before the
`pd.notna` guard is evaluated, so the guard never fails.  The claim
(and the guard's own evident intent) says such a row contributes no
record. -/
theorem markersData_includes_missing_coord_row :
    markersData [rowMissingLat]
      = [{ lat := .strv "", lon := .num 139, name := .strv "NoLat",
           line := .strv "Main", shisha := .strv "", kasho := .strv "",
           ctype := .strv "" }]
    ∧ (markersData [rowMissingLat]).length = 1 := by
  constructor <;> rfl

/-- Rows for the center-of-map counterexample: one coordinate-complete
row at (0, 0) and one row with latitude 10 but no longitude. -/
def rowOrigin : Row :=
  { name := some "O", line := none, shisha := none, kasho := none,
    ctype := none, kilo := none, lat := some 0, lon := some 0 }

def rowLatOnly : Row :=
  { name := some "L", line := none, shisha := none, kasho := none,
    ctype := none, kilo := none, lat := some 10, lon := none }

/-- Claim C9, counterexample. On a view holding the coordinate-complete
row (0, 0) and a row with latitude 10 and missing longitude, the
code's center latitude is the mean of all present latitudes, 5, while
the claimed mean over coordinate-complete rows is 0. -/
theorem center_mean_differs_from_coordComplete_mean :
    centerLat [rowOrigin, rowLatOnly] = some 5
    ∧ centerLatSpec [rowOrigin, rowLatOnly] = some 0
    ∧ centerLat [rowOrigin, rowLatOnly]
        ≠ centerLatSpec [rowOrigin, rowLatOnly] := by
  have h1 : centerLat [rowOrigin, rowLatOnly] = some 5 := by
    show pandasMean [(0 : ℚ), 10] = some 5
    unfold pandasMean
    norm_num
  have h2 : centerLatSpec [rowOrigin, rowLatOnly] = some 0 := by
    show pandasMean [(0 : ℚ)] = some 0
    unfold pandasMean
    norm_num
  refine ⟨h1, h2, ?_⟩
  rw [h1, h2]
  intro hcontra
  injection hcontra with h'
  norm_num at h'

theorem filterMap_lat_coordComplete (rows : List Row)
    (h : ∀ r ∈ rows, r.lat.isSome = r.lon.isSome) :
    (rows.filter coordComplete).filterMap Row.lat = rows.filterMap Row.lat := by
  induction rows with
  | nil => rfl
  | cons r t ih =>
    have hr := h r (List.mem_cons_self r t)
    have ht := fun x hx => h x (List.mem_cons_of_mem r hx)
    cases hl : r.lat with
    | none =>
      have hcc : coordComplete r = false := by
        unfold coordComplete
        rw [hl, ← hr, hl]
        rfl
      simp [hcc, hl, List.filter_cons, List.filterMap_cons, ih ht]
    | some v =>
      have hcc : coordComplete r = true := by
        unfold coordComplete
        rw [hl, ← hr, hl]
        rfl
      simp [hcc, hl, List.filter_cons, List.filterMap_cons, ih ht]

theorem filterMap_lon_coordComplete (rows : List Row)
    (h : ∀ r ∈ rows, r.lat.isSome = r.lon.isSome) :
    (rows.filter coordComplete).filterMap Row.lon = rows.filterMap Row.lon := by
  induction rows with
  | nil => rfl
  | cons r t ih =>
    have hr := h r (List.mem_cons_self r t)
    have ht := fun x hx => h x (List.mem_cons_of_mem r hx)
    cases hl : r.lon with
    | none =>
      have hcc : coordComplete r = false := by
        unfold coordComplete
        rw [hl, hr, hl]
        exact Bool.and_false _
      simp [hcc, hl, List.filter_cons, List.filterMap_cons, ih ht]
    | some v =>
      have hcc : coordComplete r = true := by
        unfold coordComplete
        rw [hl, hr, hl]
        exact Bool.and_self _
      simp [hcc, hl, List.filter_cons, List.filterMap_cons, ih ht]

/-- Claim C9, amended. The map center is the arithmetic mean of the
non-missing latitudes and, independently, of the non-missing
longitudes, each over the rows where that coordinate is present (a
row with only one coordinate contributes to that coordinate's mean).
It coincides with the claimed both-coordinates means whenever every
row has either both coordinates or neither. -/
theorem center_mean_per_column (rows : List Row)
    (h : ∀ r ∈ rows, r.lat.isSome = r.lon.isSome) :
    centerLat rows = centerLatSpec rows
    ∧ centerLon rows = centerLonSpec rows := by
  unfold centerLat centerLatSpec centerLon centerLonSpec
  rw [filterMap_lat_coordComplete rows h, filterMap_lon_coordComplete rows h]
  exact ⟨rfl, rfl⟩

theorem center_mean_per_column_witness :
    centerLat [rowOrigin, rowKilo2] = centerLatSpec [rowOrigin, rowKilo2]
    ∧ centerLon [rowOrigin, rowKilo2] = centerLonSpec [rowOrigin, rowKilo2] :=
  center_mean_per_column [rowOrigin, rowKilo2] (by decide)

/-! ### C1: the embedded script versus the live engine -/

theorem strContainsLit_empty_hay (t : String) (ht : t ≠ "") :
    strContainsLit "" t = false := by
  unfold strContainsLit hasSubAux
  exact toList_isEmpty_false t ht

theorem catClause_eq (sel : String) (get : Row → Option String) (r : Row)
    (h : sel ≠ "") :
    ((sel == subete) || ((get r).getD "" == sel)) = catPred sel get r := by
  unfold catPred
  by_cases hs : sel = subete
  · simp [hs]
  · have hbe : (sel == subete) = false := by simp [hs]
    rw [hbe, Bool.false_or, if_neg hs]
    cases hg : get r with
    | none =>
      simp only [Option.getD_none]
      exact beq_false_of_ne (fun he => h he.symm)
    | some v => rfl

theorem jsVisible_eq_rowPred (c : Controls) (r : Row)
    (ht : strToLower c.searchName = c.searchName)
    (hm : noMeta c.searchName = true)
    (hl : c.line ≠ "") (hs : c.shisha ≠ "") (hk : c.kasho ≠ "")
    (hc : c.ctype ≠ "")
    (hname : strToLower (r.name.getD "") = r.name.getD "") :
    jsVisible c r = rowPred (controlsCriteria c) r := by
  unfold jsVisible rowPred controlsCriteria
  simp only [ht, hname]
  have hkp : kiloPred none r = true := rfl
  rw [hkp, Bool.and_true]
  rw [catClause_eq c.line Row.line r hl, catClause_eq c.shisha Row.shisha r hs,
    catClause_eq c.kasho Row.kasho r hk, catClause_eq c.ctype Row.ctype r hc]
  have hn : (c.searchName == "" || strContainsLit (r.name.getD "") c.searchName)
      = namePred c.searchName r := by
    unfold namePred
    by_cases he : c.searchName = ""
    · simp [he]
    · have hbe : (c.searchName == "") = false := by simp [he]
      rw [hbe, Bool.false_or, if_neg he]
      cases hg : r.name with
      | none =>
        simp only [Option.getD_none]
        exact strContainsLit_empty_hay c.searchName he
      | some n =>
        simp only [Option.getD_some]
        exact (pyReContains_noMeta n c.searchName hm).symm
  rw [hn]

/-- A row named `"Oak"` (mixed case) with categorical fields set. -/
def rowOak : Row :=
  { name := some "Oak", line := some "Main", shisha := some "East",
    kasho := some "Here", ctype := some "T1", kilo := none,
    lat := none, lon := none }

/-- The export controls with name text `"oak"` and every dropdown at
the unconstrained sentinel. -/
def cOak : Controls :=
  { searchName := "oak", line := subete, shisha := subete,
    kasho := subete, ctype := subete }

/-- Claim C1, counterexample. With criteria text `"oak"` on the single
row named `"Oak"`, the embedded script's predicate (which lowercases
both sides) shows the marker while the live engine's case-sensitive
filter drops the row: the two implementations disagree on the visible
row set. -/
theorem jsFilter_live_filter_differ_on_case :
    List.filter (jsVisible cOak) [rowOak]
      ≠ filteredDf [rowOak] (controlsCriteria cOak)
    ∧ List.filter (jsVisible cOak) [rowOak] = [rowOak]
    ∧ filteredDf [rowOak] (controlsCriteria cOak) = [] := by
  refine ⟨?_, by decide, by decide⟩
  decide

/-- Claim C1, amended. The embedded script's predicate agrees with the
live engine (over the five shared controls, no range active) on every
row and criteria where case folding and regex interpretation cannot
bite: the criteria text is unchanged by lowercasing and free of regex
metacharacters, each row's name is unchanged by lowercasing, and
every active dropdown selection is a non-empty string (as all real
options are).  In general the script lowercases both sides of the
name test while the live engine matches case-sensitively and as a
regex, so the two predicates are not extensionally equal. -/
theorem jsFilter_eq_live_filter_of_lower_noMeta (rows : List Row) (c : Controls)
    (ht : strToLower c.searchName = c.searchName)
    (hm : noMeta c.searchName = true)
    (hl : c.line ≠ "") (hs : c.shisha ≠ "") (hk : c.kasho ≠ "")
    (hc : c.ctype ≠ "")
    (hrows : ∀ r ∈ rows, strToLower (r.name.getD "") = r.name.getD "") :
    rows.filter (jsVisible c) = filteredDf rows (controlsCriteria c) := by
  rw [filteredDf_eq_filter]
  apply List.filter_congr
  intro r hr
  exact jsVisible_eq_rowPred c r ht hm hl hs hk hc (hrows r hr)

/-- A fully lowercase row. -/
def rowOakLower : Row :=
  { name := some "oak crossing", line := some "Main", shisha := some "East",
    kasho := some "Here", ctype := some "T1", kilo := none,
    lat := none, lon := none }

theorem jsFilter_eq_live_filter_witness :
    List.filter (jsVisible cOak) [rowOakLower]
      = filteredDf [rowOakLower] (controlsCriteria cOak) :=
  jsFilter_eq_live_filter_of_lower_noMeta [rowOakLower] cOak (by decide)
    (by decide) (by decide) (by decide) (by decide) (by decide) (by decide)

end Humikiri
